import Mathlib

/-!
Shallow embedding of src/pyllama.py, an interactive command-line client for
a local model server.  Console input is modelled as a finite list of strings
consumed by successive input() calls; the HTTP catalog fetch, the streaming
chat call and the external creation tool are modelled by explicit outcome
oracles passed as parameters.  A Python exception that a function does not
catch is modelled by the PyResult.exc constructor propagating to the caller;
PyResult.blocked models an execution that is still waiting on input() when
the finite input script has been exhausted (in the real program: the loop
has not terminated).  Machine floats are modelled by exact fractions (an
integer numerator over a positive integer denominator); every numeric value
the program manipulates is a small decimal or a byte count, for which the
float results and the printed renderings agree with the exact ones.
-/

namespace Pyllama

/-- Python exceptions relevant to this program. -/
inductive PyErr where
  | valueError
  | typeError
  | keyError
  | connectionError (msg : String)
deriving DecidableEq, Repr

/-- Result of running an embedded fragment of the program: normal return,
an uncaught Python exception propagating to the caller, or an execution
blocked on input() after the finite input script ran out. -/
inductive PyResult (α : Type) where
  | ok (a : α)
  | exc (e : PyErr)
  | blocked
deriving DecidableEq, Repr

def PyResult.bind {α β : Type} : PyResult α → (α → PyResult β) → PyResult β
  | .ok a, f => f a
  | .exc e, _ => .exc e
  | .blocked, _ => .blocked

instance : Monad PyResult where
  pure := .ok
  bind := PyResult.bind

@[simp] theorem PyResult.bind_ok {α β : Type} (a : α) (f : α → PyResult β) :
    PyResult.bind (.ok a) f = f a := rfl

@[simp] theorem PyResult.bind_exc {α β : Type} (e : PyErr) (f : α → PyResult β) :
    PyResult.bind (.exc e) f = .exc e := rfl

@[simp] theorem PyResult.bind_blocked {α β : Type} (f : α → PyResult β) :
    PyResult.bind (.blocked : PyResult α) f = .blocked := rfl

@[simp] theorem PyResult.monad_bind_eq {α β : Type} (x : PyResult α) (f : α → PyResult β) :
    x >>= f = PyResult.bind x f := rfl

@[simp] theorem PyResult.pure_eq {α : Type} (a : α) : (pure a : PyResult α) = .ok a := rfl

/-- A Python float value, modelled exactly as a fraction: an integer
numerator over a positive denominator.  The fraction is not normalized;
no operation of the program compares floats, they are only rendered. -/
structure PyFloat where
  num : Int
  den : Nat
deriving DecidableEq, Repr

/-- The float value of an integer. -/
def PyFloat.ofInt (n : Int) : PyFloat := ⟨n, 1⟩

/-- Exact division of a float by a positive integer constant. -/
def PyFloat.divNat (x : PyFloat) (m : Nat) : PyFloat := ⟨x.num, x.den * m⟩

/-- A dynamically typed JSON-ish scalar: the program only ever meets integers
and strings in the positions we model (the size field of a model dict). -/
inductive PyVal where
  | intV (n : Int)
  | strV (s : String)
deriving DecidableEq, Repr

/-- Value of a nonempty list of decimal digit characters; none when the list
is empty or contains a non-digit. -/
def digitsVal (cs : List Char) : Option Nat :=
  if cs = [] then none else go cs 0
where
  go : List Char → Nat → Option Nat
    | [], acc => some acc
    | c :: rest, acc =>
      if c.isDigit then go rest (acc * 10 + (c.toNat - 48)) else none

/-- Strip leading and trailing whitespace from the character list of a
string, as the Python numeric constructors do before parsing. -/
def stripWs (s : String) : List Char :=
  ((s.toList.dropWhile Char.isWhitespace).reverse.dropWhile Char.isWhitespace).reverse

/-- Model of the Python builtin int() applied to a string: surrounding
whitespace stripped, an optional sign, then at least one decimal digit.
(Digit-group underscores and non-decimal bases are not modelled; the program
only parses plain decimal selections and context sizes.)  none models a
raised ValueError. -/
def pyIntOfString (s : String) : Option Int :=
  match stripWs s with
  | '-' :: rest => (digitsVal rest).map (fun n => -(n : Int))
  | '+' :: rest => (digitsVal rest).map (fun n => (n : Int))
  | cs => (digitsVal cs).map (fun n => (n : Int))

/-- Parse an unsigned decimal literal, optionally with a fractional part,
into an exact float value. -/
def decimalVal (cs : List Char) : Option PyFloat :=
  let ds := cs.takeWhile Char.isDigit
  let rest := cs.dropWhile Char.isDigit
  match rest with
  | [] => (digitsVal ds).map (fun n => PyFloat.ofInt (n : Int))
  | '.' :: rest2 =>
    let fs := rest2.takeWhile Char.isDigit
    let rest3 := rest2.dropWhile Char.isDigit
    if rest3 = [] then
      if ds = [] ∧ fs = [] then none
      else
        some ⟨((digitsVal ds).getD 0 * 10 ^ fs.length + (digitsVal fs).getD 0 : Nat),
              10 ^ fs.length⟩
    else none
  | _ => none

/-- Negate a float value. -/
def PyFloat.neg (x : PyFloat) : PyFloat := ⟨-x.num, x.den⟩

/-- Model of the Python builtin float() applied to a string: surrounding
whitespace stripped, an optional sign, then a decimal literal with an
optional fractional part.  (Exponents, inf and nan are not modelled; the
program only parses plain decimal parameter values.)  none models a raised
ValueError. -/
def pyFloatOfString (s : String) : Option PyFloat :=
  match stripWs s with
  | '-' :: rest => (decimalVal rest).map PyFloat.neg
  | '+' :: rest => decimalVal rest
  | cs => decimalVal cs

/-- Round the fraction n over d (with d positive) to the nearest integer,
ties to even: the rounding mode of the Python builtin round and of float
formatting. -/
def roundHalfEvenFrac (n : Int) (d : Nat) : Int :=
  let f := n.fdiv d
  let r2 := 2 * (n - f * d)
  if r2 < d then f
  else if (d : Int) < r2 then f + 1
  else if f % 2 = 0 then f else f + 1

/-- The value of a float in hundredths, rounded half to even: round(x, 2)
scaled by 100. -/
def round2Hundredths (x : PyFloat) : Int := roundHalfEvenFrac (x.num * 100) x.den

/-- Two-digit zero-padded rendering of a natural number below 100. -/
def twoDigits (fr : Nat) : String :=
  (if fr < 10 then "0" else "") ++ toString fr

/-- Model of the Python format specification .2f applied to a float:
always exactly two digits after the point. -/
def formatF2 (x : PyFloat) : String :=
  let n := round2Hundredths x
  let sign := if n < 0 then "-" else ""
  let m := n.natAbs
  sign ++ toString (m / 100) ++ "." ++ twoDigits (m % 100)

/-- Model of the Python builtin str applied to round(x, 2): the shortest
decimal rendering of the two-decimal value, trailing zeros stripped but at
least one fractional digit kept (str(4.0) is the string 4.0). -/
def strRound2 (x : PyFloat) : String :=
  let n := round2Hundredths x
  let sign := if n < 0 then "-" else ""
  let m := n.natAbs
  let ip := m / 100
  let fr := m % 100
  sign ++ toString ip ++ "." ++
    (if fr = 0 then "0"
     else if fr % 10 = 0 then toString (fr / 10)
     else twoDigits fr)

/-- Decimal digits of the fractional part r over d, at most fuel digits,
stopping when the remainder vanishes. -/
def fracDigitsAux : Nat → Nat → Nat → List Char
  | 0, _, _ => []
  | fuel + 1, r, d =>
    if r = 0 then []
    else
      let r10 := r * 10
      Char.ofNat (48 + r10 / d) :: fracDigitsAux fuel (r10 % d) d

/-- Model of the Python builtin str applied to a float with a short decimal
expansion (the only floats this program renders through str directly):
sign, integer part, point, fractional digits with at least one digit. -/
def pyFloatStr (x : PyFloat) : String :=
  let na := x.num.natAbs
  let ip := na / x.den
  let r := na % x.den
  let frs := fracDigitsAux 17 r x.den
  (if x.num < 0 then "-" else "") ++ toString ip ++ "." ++
    (if frs = [] then "0" else String.mk frs)

/-- The details sub-dictionary of a model entry of the catalog response;
a missing key is None. -/
structure PyDetails where
  family : Option String
  parameter_size : Option String
  quantization_level : Option String
deriving DecidableEq, Repr

/-- One model dictionary of the catalog response.  The size field is
dynamically typed: the JSON may carry an integer or anything else (modelled
as a string); a missing key is None. -/
structure PyModel where
  name : Option String
  details : Option PyDetails
  size : Option PyVal
deriving DecidableEq, Repr

/-- JSON body of the tags endpoint: the models key may be absent. -/
structure TagsBody where
  models : Option (List PyModel)
deriving DecidableEq, Repr

/-- Outcome of the one HTTP GET the program performs: either the transport
fails (requests raises an exception before any response exists), or a
response with a status code and body arrives. -/
inductive FetchOutcome where
  | transportError (msg : String)
  | response (status : Nat) (body : TagsBody)
deriving DecidableEq, Repr

/-- Embedding of get_installed_models (src/pyllama.py lines 12 to 19).
Returns the result together with the list of console messages printed.
A transport failure raises out of requests.get, and the function has no
handler for it, so it propagates as an exception; a non-200 status prints a
failure message and returns the empty list; a 200 status returns the models
key of the body, defaulting to the empty list. -/
def get_installed_models (r : FetchOutcome) : PyResult (List PyModel) × List String :=
  match r with
  | .transportError msg => (.exc (.connectionError msg), [])
  | .response status body =>
    if status = 200 then (.ok (body.models.getD []), [])
    else (.ok [], ["Failed to retrieve models: " ++ toString status])

/-- Embedding of bytes_to_gb (src/pyllama.py lines 22 to 23). -/
def bytes_to_gb (byte_size : PyFloat) : PyFloat := byte_size.divNat (1024 ^ 3)

/-- The row returned by format_model_details. -/
structure FormattedModel where
  nameF : String
  familyF : String
  parameterSizeF : String
  quantizationLevelF : String
  sizeF : String
deriving DecidableEq, Repr

/-- True division of a dynamically typed value by a positive integer, as on
line 32 of the source: a string operand raises TypeError. -/
def pyDivVal (v : PyVal) (d : Nat) : PyResult PyFloat :=
  match v with
  | .intV n => .ok ((PyFloat.ofInt n).divNat d)
  | .strV _ => .exc .typeError

/-- Embedding of format_model_details (src/pyllama.py lines 26 to 45).
The size division on line 32 happens before the try block, so a missing or
non-integer size raises an uncaught TypeError; the try block catches only
the ValueError or TypeError coming from int(param_size), falling back to
the raw parameter_size string. -/
def format_model_details (m : PyModel) : PyResult FormattedModel := do
  let details := m.details.getD ⟨none, none, none⟩
  let family := details.family.getD ""
  let param_size := details.parameter_size.getD ""
  let quant_level := details.quantization_level.getD ""
  let s1 ← pyDivVal (m.size.getD (.strV "")) 1024
  let size := strRound2 ((s1.divNat 1024).divNat 1024)
  let param_size_display :=
    match pyIntOfString param_size with
    | some n => formatF2 (bytes_to_gb (PyFloat.ofInt n)) ++ " GB"
    | none => param_size
  pure { nameF := m.name.getD ""
         familyF := family
         parameterSizeF := param_size_display
         quantizationLevelF := quant_level
         sizeF := size ++ " GB" }

/-- Embedding of print_model_menu (src/pyllama.py lines 48 to 57): it
formats every model for the table, so any exception format_model_details
raises propagates out of the menu rendering. -/
def print_model_menu : List PyModel → PyResult Unit
  | [] => .ok ()
  | m :: ms =>
    match format_model_details m with
    | .ok _ => print_model_menu ms
    | .exc e => .exc e
    | .blocked => .blocked

/-- Embedding of select_model (src/pyllama.py lines 60 to 69) over the list
of pending console inputs: each loop iteration consumes one input; a
non-numeric input or an out-of-range number prints a message and loops with
the same (unchanged) model list; a valid selection n returns the model at
index n - 1 together with the unconsumed inputs.  An exhausted input list
leaves the loop blocked on input(). -/
def select_model {α : Type} (models : List α) : List String → PyResult (α × List String)
  | [] => .blocked
  | s :: rest =>
    match pyIntOfString s with
    | some n =>
      if h : 1 ≤ n ∧ n ≤ (models.length : Int) then
        .ok (models.get ⟨(n - 1).toNat, by omega⟩, rest)
      else select_model models rest
    | none => select_model models rest

/-- Read one console line and parse it with float(): a parse failure raises
ValueError at once (get_user_parameters has no retry loop). -/
def readFloat : List String → PyResult (PyFloat × List String)
  | [] => .blocked
  | s :: rest =>
    match pyFloatOfString s with
    | some q => .ok (q, rest)
    | none => .exc .valueError

/-- Read one console line and parse it with int(): a parse failure raises
ValueError at once. -/
def readInt : List String → PyResult (Int × List String)
  | [] => .blocked
  | s :: rest =>
    match pyIntOfString s with
    | some n => .ok (n, rest)
    | none => .exc .valueError

/-- The five generation parameters captured by get_user_parameters. -/
structure UserParams where
  temperature : PyFloat
  num_ctx : Int
  top_k : Int
  top_p : PyFloat
  min_p : PyFloat
deriving DecidableEq, Repr

/-- Embedding of get_user_parameters (src/pyllama.py lines 72 to 85): five
sequential prompts parsed as float, int, int, float, float; the first value
that fails to parse raises ValueError to the caller, before the remaining
prompts are shown. -/
def get_user_parameters (inputs : List String) : PyResult (UserParams × List String) := do
  let (temperature, r1) ← readFloat inputs
  let (num_ctx, r2) ← readInt r1
  let (top_k, r3) ← readInt r2
  let (top_p, r4) ← readFloat r3
  let (min_p, r5) ← readFloat r4
  pure ({ temperature := temperature, num_ctx := num_ctx, top_k := top_k,
          top_p := top_p, min_p := min_p }, r5)

/-- Embedding of write_to_model_file (src/pyllama.py lines 88 to 92): the
first component is the file name written to (the model_name argument), the
second the exact file content.  Parameter values appear through the Python
str rendering performed by the f-string, so the mapping is taken as a list
of key and rendered-value pairs in dict insertion order. -/
def write_to_model_file (model_name : String) (original_model_name : String)
    (parameters : List (String × String)) : String × String :=
  (model_name,
    "FROM " ++ original_model_name ++ "\n" ++
      String.join (parameters.map (fun kv => "PARAMETER " ++ kv.1 ++ " " ++ kv.2 ++ "\n")))

/-- Outcome of invoking the external creation tool. -/
inductive ToolOutcome where
  | success
  | failure (msg : String)
deriving DecidableEq, Repr

/-- Embedding of create_ollama_model_with_config (src/pyllama.py lines 95 to
101): every exception of the subprocess call is caught, so the function
always returns normally; the result is the console message printed. -/
def create_ollama_model_with_config (tool : ToolOutcome) (model_name : String)
    (_config_file : String) : List String :=
  match tool with
  | .success => ["Model " ++ model_name ++ " created successfully."]
  | .failure e => ["Error creating model: " ++ e]

/-- The rendered key-to-value list passed from the copy-model menu branch to
write_to_model_file, in the dict insertion order of the source: temperature,
num_ctx, top_k, top_p, min_p. -/
def renderParams (p : UserParams) : List (String × String) :=
  [("temperature", pyFloatStr p.temperature),
   ("num_ctx", toString p.num_ctx),
   ("top_k", toString p.top_k),
   ("top_p", pyFloatStr p.top_p),
   ("min_p", pyFloatStr p.min_p)]

/-- What one streaming chat call yields: either a finite list of content
fragments followed by normal completion, or some fragments followed by a
raised exception carrying a message. -/
inductive ChatOutcome where
  | chunks (cs : List String)
  | raise (flushed : List String) (e : String)

/-- Observable event of a chat session: console output, log file lifecycle
and log file writes.  Closing the log file flushes it. -/
inductive Ev where
  | openLog
  | logWrite (s : String)
  | logFlush
  | closeLog
  | print (s : String)
deriving DecidableEq, Repr

/-- Model of the Python str.lower method, mapping each character to lower
case (ASCII suffices for the sentinel comparison). -/
def pyLower (s : String) : String := String.mk (s.toList.map Char.toLower)

/-- The separator written to the log after each completed response. -/
def sepLog : String :=
  "\n" ++ String.mk (List.replicate 80 '-') ++ "\n"

/-- The separator printed to the console after each completed response. -/
def sepConsole : String :=
  "\n" ++ String.mk (List.replicate 80 '-')

/-- Events produced while streaming a list of fragments: each fragment is
printed, appended to the log and flushed at once. -/
def streamEvents : List String → List Ev
  | [] => []
  | c :: cs => .print c :: .logWrite c :: .logFlush :: streamEvents cs

/-- How the with-block body of run_model ended. -/
inductive LoopExit where
  | normal
  | raised (e : String)
  | stuck
deriving DecidableEq, Repr

/-- Embedding of the while loop of run_model (src/pyllama.py lines 143 to
162).  The loop condition compares the lower-cased previous prompt with the
sentinel at the top of each iteration; the body always logs the freshly read
prompt, writes the Assistant prefix and streams the chat response for it,
sentinel or not.  Returns the events of the body, how the loop ended and
the unconsumed inputs. -/
def run_model_loop (chat : String → ChatOutcome) (inputs : List String)
    (user_prompt : String) : List Ev × LoopExit × List String :=
  if pyLower user_prompt = "exit" then ([], .normal, inputs)
  else
    match inputs with
    | [] => ([], .stuck, [])
    | p :: rest =>
      let pre := [Ev.logWrite ("User: " ++ p ++ "\n"), Ev.logFlush,
                  Ev.logWrite "Assistant: "]
      match chat p with
      | .raise fl e => (pre ++ streamEvents fl, .raised e, rest)
      | .chunks cs =>
        let next := run_model_loop chat rest p
        (pre ++ streamEvents cs ++
          [Ev.logWrite sepLog, Ev.logFlush, Ev.print sepConsole] ++ next.1,
         next.2.1, next.2.2)

/-- Result of a whole run_model call: its observable events, the unconsumed
console inputs, and whether the run is still blocked on input(). -/
structure RunResult where
  events : List Ev
  rest : List String
  blocked : Bool
deriving DecidableEq, Repr

/-- The log file path announced by run_model for a session started at the
given timestamp. -/
def logPath (now : String) : String := "logs/Session_" ++ now ++ ".log"

/-- Embedding of run_model (src/pyllama.py lines 131 to 167).  The with
statement closes (and thereby flushes) the log file both when the loop ends
normally and when an exception escapes the body; the except clause catches
the exception and prints a description; the finally clause announces the
log file path on every exit path. -/
def run_model (chat : String → ChatOutcome) (now : String) (model_name : String)
    (inputs : List String) : RunResult :=
  let path := logPath now
  let pre := [Ev.print ("Running model: " ++ model_name), Ev.openLog]
  match run_model_loop chat inputs "" with
  | (evs, .normal, rest) =>
    ⟨pre ++ evs ++ [Ev.closeLog, Ev.print ("Session log saved to: " ++ path)], rest, false⟩
  | (evs, .raised e, rest) =>
    ⟨pre ++ evs ++ [Ev.closeLog, Ev.print ("An error occurred: " ++ e),
                    Ev.print ("Session log saved to: " ++ path)], rest, false⟩
  | (evs, .stuck, rest) => ⟨pre ++ evs, rest, true⟩

/-- The concatenated content written to the log file during a session. -/
def logContent (evs : List Ev) : String :=
  String.join (evs.filterMap (fun e => match e with | .logWrite s => some s | _ => none))

/-- Embedding of show_model_details (src/pyllama.py lines 170 to 179): it
refetches the catalog (an exception from the fetch propagates) and prints
details for every matching model; the square-bracket accesses to name and
size raise KeyError when absent, and bytes_to_gb applied to a non-integer
size raises TypeError.  Console text is not tracked here. -/
def show_model_details_go (model_name : String) : List PyModel → PyResult Unit
  | [] => .ok ()
  | m :: ms =>
    match m.name with
    | none => .exc .keyError
    | some n =>
      if n = model_name then
        match m.size with
        | none => .exc .keyError
        | some (.strV _) => .exc .typeError
        | some (.intV _) => show_model_details_go model_name ms
      else show_model_details_go model_name ms

/-- Embedding of show_model_details (src/pyllama.py lines 170 to 179). -/
def show_model_details (fetch : FetchOutcome) (model_name : String) : PyResult Unit :=
  match (get_installed_models fetch).1 with
  | .exc e => .exc e
  | .blocked => .blocked
  | .ok models => show_model_details_go model_name models

/-- Embedding of the while loop of secondary_menu (src/pyllama.py lines 103
to 128), driven by the pending console inputs.  Every iteration consumes at
least the choice input, so the loop runs at most as many iterations as there
are inputs; the fuel argument is a bound on the iteration count and, when
started at one more than the number of inputs, is never exhausted before
the inputs are.  The ok result carries the value the Python function
returns (-1 for Exit, none for the implicit None after break) and the
unconsumed inputs; an exception raised by a dispatched operation propagates
out of the menu, which has no handler. -/
def secondary_menu_go (selected_model : PyModel) (chat : String → ChatOutcome)
    (fetch : FetchOutcome) (tool : ToolOutcome) (now : String) :
    Nat → List String → PyResult (Option Int × List String)
  | 0, _ => .blocked
  | _ + 1, [] => .blocked
  | fuel + 1, choice :: rest =>
    if choice = "1" then
      match selected_model.name with
      | none => .exc .keyError
      | some name =>
        let r := run_model chat now name rest
        if r.blocked then .blocked
        else secondary_menu_go selected_model chat fetch tool now fuel r.rest
    else if choice = "2" then
      match selected_model.name with
      | none => .exc .keyError
      | some name =>
        match show_model_details fetch name with
        | .exc e => .exc e
        | .blocked => .blocked
        | .ok _ => secondary_menu_go selected_model chat fetch tool now fuel rest
    else if choice = "3" then
      match rest with
      | [] => .blocked
      | nm :: rest2 =>
        match get_user_parameters rest2 with
        | .exc e => .exc e
        | .blocked => .blocked
        | .ok (params, rest3) =>
          match selected_model.name with
          | none => .exc .keyError
          | some base =>
            let config_file := nm ++ ".modelfile"
            let _file := write_to_model_file config_file base (renderParams params)
            let _msgs := create_ollama_model_with_config tool nm config_file
            secondary_menu_go selected_model chat fetch tool now fuel rest3
    else if choice = "4" then .ok (none, rest)
    else if choice = "5" then .ok (some (-1), rest)
    else secondary_menu_go selected_model chat fetch tool now fuel rest

/-- Embedding of secondary_menu (src/pyllama.py lines 103 to 128). -/
def secondary_menu (selected_model : PyModel) (chat : String → ChatOutcome)
    (fetch : FetchOutcome) (tool : ToolOutcome) (now : String)
    (inputs : List String) : PyResult (Option Int × List String) :=
  secondary_menu_go selected_model chat fetch tool now (inputs.length + 1) inputs

/-- Embedding of the while loop of main (src/pyllama.py lines 183 to 193),
driven by the pending console inputs.  Every iteration consumes at least
one input inside select_model, so the fuel argument started at one more
than the number of inputs is never exhausted before the inputs are.  The
catalog fetch, the menu rendering and the secondary menu all propagate
their exceptions: main has no handler, so an exception here is an abnormal
process termination.  The ok result carries the unconsumed inputs at
normal return. -/
def main_loop (fetch : FetchOutcome) (chat : String → ChatOutcome)
    (tool : ToolOutcome) (now : String) : Nat → List String → PyResult (List String)
  | 0, _ => .blocked
  | fuel + 1, inputs =>
    match (get_installed_models fetch).1 with
    | .exc e => .exc e
    | .blocked => .blocked
    | .ok models =>
      if models = [] then .ok inputs
      else
        match print_model_menu models with
        | .exc e => .exc e
        | .blocked => .blocked
        | .ok _ =>
          match select_model models inputs with
          | .exc e => .exc e
          | .blocked => .blocked
          | .ok (selected, rest) =>
            match secondary_menu selected chat fetch tool now rest with
            | .exc e => .exc e
            | .blocked => .blocked
            | .ok (check, rest2) =>
              if check = some (-1) then .ok rest2
              else main_loop fetch chat tool now fuel rest2

/-- Embedding of main (src/pyllama.py lines 183 to 193). -/
def main (fetch : FetchOutcome) (chat : String → ChatOutcome) (tool : ToolOutcome)
    (now : String) (inputs : List String) : PyResult (List String) :=
  main_loop fetch chat tool now (inputs.length + 1) inputs

/-! ## Theorems about the claims -/

/-- C4: write_to_model_file writes exactly one declaration line naming the
base model followed by one PARAMETER line per entry of the parameter
mapping, in the mapping key order; in particular, for name bar, base llama2
and parameters temperature 0.7 and num_ctx 2048, the file content is
exactly the three lines FROM llama2, PARAMETER temperature 0.7 and
PARAMETER num_ctx 2048, each newline-terminated. -/
theorem c4_write_to_model_file_content :
    (write_to_model_file "bar" "llama2" [("temperature", "0.7"), ("num_ctx", "2048")]).2 =
      "FROM llama2\nPARAMETER temperature 0.7\nPARAMETER num_ctx 2048\n" ∧
    ∀ (name base : String) (ps : List (String × String)),
      (write_to_model_file name base ps).2 =
        "FROM " ++ base ++ "\n" ++
          String.join (ps.map (fun kv => "PARAMETER " ++ kv.1 ++ " " ++ kv.2 ++ "\n")) :=
  ⟨by decide, fun _ _ _ => rfl⟩

/-- C10: an HTTP 200 response whose JSON body lacks the models key makes
get_installed_models return the empty list via the defaulted lookup, with
no exception and no console message, exactly as for a well-formed response
whose models array is empty. -/
theorem c10_missing_models_key_defaults_empty :
    get_installed_models (.response 200 ⟨none⟩) = (.ok [], []) ∧
    get_installed_models (.response 200 ⟨none⟩) =
      get_installed_models (.response 200 ⟨some []⟩) := by
  decide

/-- C2, counterexample: on a transport failure the claim says the fetch
returns an empty result and reports a message without crashing, but
get_installed_models has no exception handler around requests.get, so the
exception propagates; through main, which also has no handler, it is an
abnormal termination of the process. -/
theorem c2_counterexample_transport_failure_raises :
    (get_installed_models (.transportError "Connection refused")).1 =
      .exc (.connectionError "Connection refused") ∧
    (get_installed_models (.transportError "Connection refused")).1 ≠ .ok [] ∧
    main (.transportError "Connection refused") (fun _ => .chunks []) .success
      "20240101_120000" [] = .exc (.connectionError "Connection refused") := by
  decide

/-- C2, amended: only the non-success-status outcome is turned into an
empty result plus a console message; a transport failure raises the
underlying exception, which neither get_installed_models nor any caller
catches. -/
theorem c2_amended_fetch_error_handling :
    (∀ (status : Nat) (body : TagsBody), status ≠ 200 →
      get_installed_models (.response status body) =
        (.ok [], ["Failed to retrieve models: " ++ toString status])) ∧
    (∀ msg : String, get_installed_models (.transportError msg) =
      (.exc (.connectionError msg), [])) := by
  constructor
  · intro status body h
    simp [get_installed_models, h]
  · intro msg
    rfl

/-- C2, witness for the amended theorem at status 404 and a concrete
transport failure message. -/
theorem c2_amended_witness :
    get_installed_models (.response 404 ⟨none⟩) =
      (.ok [], ["Failed to retrieve models: " ++ toString 404]) ∧
    get_installed_models (.transportError "timed out") =
      (.exc (.connectionError "timed out"), []) :=
  ⟨c2_amended_fetch_error_handling.1 404 ⟨none⟩ (by decide),
   c2_amended_fetch_error_handling.2 "timed out"⟩

/-- C8: format_model_details requires the size field to be present and
numeric: when size is absent (so the lookup defaults to the empty string)
or holds a non-numeric (string) value, the division by 1024 on line 32
raises a TypeError that the function does not catch, because its try block
only protects the parameter_size conversion. -/
theorem c8_size_must_be_numeric :
    ∀ m : PyModel, (m.size = none ∨ ∃ s, m.size = some (.strV s)) →
      format_model_details m = .exc .typeError := by
  intro m h
  rcases h with h | ⟨s, h⟩ <;>
    simp [format_model_details, h, pyDivVal]

/-- C8, witness: a model dictionary with no size key at all. -/
theorem c8_witness :
    format_model_details { name := some "foo", details := none, size := none } =
      .exc .typeError :=
  c8_size_must_be_numeric { name := some "foo", details := none, size := none }
    (Or.inl rfl)

/-- C6: format_model_details renders a numeric parameter_size string as a
byte count in binary gigabytes to two decimals and converts size the same
way: on the example model the parameter size renders as 6.52 GB and the
size as 4.0 GB; and a non-numeric parameter_size is passed through
unchanged whenever the call returns at all. -/
theorem c6_format_model_details_rendering :
    format_model_details
        { name := some "foo",
          details := some ⟨some "llama", some "7000000000", some "Q4"⟩,
          size := some (.intV 4294967296) } =
      .ok { nameF := "foo", familyF := "llama", parameterSizeF := "6.52 GB",
            quantizationLevelF := "Q4", sizeF := "4.0 GB" } ∧
    ∀ (m : PyModel) (fmt : FormattedModel),
      format_model_details m = .ok fmt →
      pyIntOfString ((m.details.getD ⟨none, none, none⟩).parameter_size.getD "") = none →
      fmt.parameterSizeF = (m.details.getD ⟨none, none, none⟩).parameter_size.getD "" := by
  constructor
  · decide
  · intro m fmt hok hnone
    cases hdv : pyDivVal (m.size.getD (.strV "")) 1024 with
    | ok s1 =>
      simp [format_model_details, hdv, hnone] at hok
      rw [← hok]
    | exc e => simp [format_model_details, hdv] at hok
    | blocked => simp [format_model_details, hdv] at hok

/-- C6, witness for the pass-through part: a model whose parameter_size is
the non-numeric string unknown keeps it verbatim in the rendered row. -/
theorem c6_witness :
    ({ nameF := "", familyF := "", parameterSizeF := "unknown",
       quantizationLevelF := "", sizeF := "0.0 GB" } : FormattedModel).parameterSizeF =
      "unknown" :=
  c6_format_model_details_rendering.2
    { name := none, details := some ⟨none, some "unknown", none⟩,
      size := some (.intV 0) }
    { nameF := "", familyF := "", parameterSizeF := "unknown",
      quantizationLevelF := "", sizeF := "0.0 GB" }
    (by decide) (by decide)

/-- C5: for every model list and a first input parsing to a selection n in
the range one to count, select_model returns the model at index n - 1 and
leaves the remaining inputs untouched; for an input that is non-numeric or
parses outside the range, the prompt repeats on the very same (unmutated)
list, retrying without limit until a valid selection arrives. -/
theorem c5_select_model_valid_and_retry :
    (∀ (α : Type) (models : List α) (s : String) (n : Int) (rest : List String),
      pyIntOfString s = some n → 1 ≤ n → n ≤ (models.length : Int) →
      ∃ m, models[(n - 1).toNat]? = some m ∧
        select_model models (s :: rest) = .ok (m, rest)) ∧
    (∀ (α : Type) (models : List α) (s : String) (rest : List String),
      (pyIntOfString s = none ∨
        ∃ n, pyIntOfString s = some n ∧ (n < 1 ∨ (models.length : Int) < n)) →
      select_model models (s :: rest) = select_model models rest) := by
  constructor
  · intro α models s n rest hs h1 h2
    have hlt : (n - 1).toNat < models.length := by omega
    refine ⟨models.get ⟨(n - 1).toNat, hlt⟩, ?_, ?_⟩
    · simp [List.getElem?_eq_getElem hlt]
    · simp [select_model, hs, h1, h2]
  · intro α models s rest h
    rcases h with h | ⟨n, hs, hout⟩
    · simp [select_model, h]
    · have hnot : ¬(1 ≤ n ∧ n ≤ (models.length : Int)) := by omega
      simp [select_model, hs, hnot]

/-- C5, witness: selecting 2 from a three-element list returns its second
element and the unconsumed input. -/
theorem c5_witness :
    ∃ m, ([10, 20, 30] : List Nat)[((2 : Int) - 1).toNat]? = some m ∧
      select_model ([10, 20, 30] : List Nat) ["2", "x"] = .ok (m, ["x"]) :=
  c5_select_model_valid_and_retry.1 Nat [10, 20, 30] "2" 2 ["x"]
    (by decide) (by decide) (by decide)

/-- C9: with the empty model list no selection satisfies the range check,
so select_model consumes every pending input and never returns (the real
loop runs forever); with any input stream containing a valid selection it
terminates, and its result is an element of the supplied list. -/
theorem c9_select_model_termination :
    (∀ (α : Type) (inputs : List String),
      select_model ([] : List α) inputs = .blocked) ∧
    (∀ (α : Type) (models : List α) (inputs : List String),
      (∃ s ∈ inputs, ∃ n, pyIntOfString s = some n ∧ 1 ≤ n ∧
        n ≤ (models.length : Int)) →
      ∃ m rest, select_model models inputs = .ok (m, rest) ∧ m ∈ models) := by
  constructor
  · intro α inputs
    induction inputs with
    | nil => rfl
    | cons s rest ih =>
      cases hs : pyIntOfString s with
      | none => simpa [select_model, hs] using ih
      | some n =>
        have hnot : ¬(1 ≤ n ∧ n ≤ (([] : List α).length : Int)) := by
          simp; omega
        simp only [select_model, hs]
        rw [dif_neg hnot]
        exact ih
  · intro α models inputs hex
    induction inputs with
    | nil => simp at hex
    | cons s rest ih =>
      cases hs : pyIntOfString s with
      | some n =>
        by_cases hr : 1 ≤ n ∧ n ≤ (models.length : Int)
        · have hlt : (n - 1).toNat < models.length := by omega
          exact ⟨models.get ⟨(n - 1).toNat, hlt⟩, rest,
            by simp [select_model, hs, hr], List.get_mem models _ hlt⟩
        · have hstep : select_model models (s :: rest) = select_model models rest := by
            simp [select_model, hs, hr]
          rw [hstep]
          apply ih
          rcases hex with ⟨s', hmem, n', hn', h1', h2'⟩
          rcases List.mem_cons.mp hmem with rfl | hmem'
          · rw [hs] at hn'
            cases hn'
            exact absurd ⟨h1', h2'⟩ hr
          · exact ⟨s', hmem', n', hn', h1', h2'⟩
      | none =>
        have hstep : select_model models (s :: rest) = select_model models rest := by
          simp [select_model, hs]
        rw [hstep]
        apply ih
        rcases hex with ⟨s', hmem, n', hn', h1', h2'⟩
        rcases List.mem_cons.mp hmem with rfl | hmem'
        · rw [hs] at hn'
          cases hn'
        · exact ⟨s', hmem', n', hn', h1', h2'⟩

/-- C9, witness: a stream whose second entry is the valid selection 2 for a
two-element list ends the loop with an element of that list. -/
theorem c9_witness :
    ∃ m rest, select_model ([5, 6] : List Nat) ["x", "2"] = .ok (m, rest) ∧
      m ∈ ([5, 6] : List Nat) :=
  c9_select_model_termination.2 Nat [5, 6] ["x", "2"]
    ⟨"2", by decide, 2, by decide, by decide, by decide⟩

/-- C1, counterexample: the loop condition is checked only at the top of
the while loop, against the prompt of the previous iteration, so a session
whose first prompt is the exit sentinel still logs the Assistant prefix and
streams the model response to the sentinel before the loop is left: the log
of such a session contains one Assistant entry, not zero. -/
theorem c1_counterexample_sentinel_is_streamed :
    (run_model (fun _ => .chunks ["Bye!"]) "20240101_120000" "m" ["exit"]).events.count
        (Ev.logWrite "Assistant: ") = 1 ∧
    logContent (run_model (fun _ => .chunks ["Bye!"]) "20240101_120000" "m" ["exit"]).events =
      "User: exit\nAssistant: Bye!" ++ sepLog := by
  decide

/-- C1, amended: when the first prompt of a session equals the sentinel
(case-insensitively), the loop body still runs once for it — the sentinel
prompt is logged, the Assistant prefix is written and the chat response to
the sentinel is streamed and logged — and only then is the loop left, with
no further input consumed; the log file is closed and its path announced. -/
theorem c1_amended_sentinel_streams_once :
    ∀ (p : String) (rest cs : List String) (chat : String → ChatOutcome)
      (now name : String),
      pyLower p = "exit" → chat p = .chunks cs →
      run_model chat now name (p :: rest) =
        ⟨[Ev.print ("Running model: " ++ name), Ev.openLog,
          Ev.logWrite ("User: " ++ p ++ "\n"), Ev.logFlush,
          Ev.logWrite "Assistant: "] ++ streamEvents cs ++
          [Ev.logWrite sepLog, Ev.logFlush, Ev.print sepConsole, Ev.closeLog,
           Ev.print ("Session log saved to: " ++ logPath now)], rest, false⟩ := by
  intro p rest cs chat now name hp hc
  have hloop : run_model_loop chat rest p = ([], .normal, rest) := by
    cases rest <;> simp [run_model_loop, hp]
  simp [run_model, run_model_loop, hp, hc, hloop, pyLower]

/-- C1, witness for the amended theorem: a session whose first prompt is
the sentinel in mixed case. -/
theorem c1_amended_witness :
    run_model (fun _ => .chunks ["bye"]) "20240102_080000" "llama2" ["Exit", "later"] =
      ⟨[Ev.print ("Running model: " ++ "llama2"), Ev.openLog,
        Ev.logWrite ("User: " ++ "Exit" ++ "\n"), Ev.logFlush,
        Ev.logWrite "Assistant: "] ++ streamEvents ["bye"] ++
        [Ev.logWrite sepLog, Ev.logFlush, Ev.print sepConsole, Ev.closeLog,
         Ev.print ("Session log saved to: " ++ logPath "20240102_080000")],
       ["later"], false⟩ :=
  c1_amended_sentinel_streams_once "Exit" ["later"] ["bye"] (fun _ => .chunks ["bye"])
    "20240102_080000" "llama2" (by decide) rfl

/-- C7: on every exit path of a session that is not still waiting on
input() — the sentinel exit and a caught streaming error alike — the with
statement closes (and thereby flushes) the log file, and the very last
observable event is the announcement of the log file path. -/
theorem c7_log_closed_and_path_announced :
    ∀ (chat : String → ChatOutcome) (now name : String) (inputs : List String),
      (run_model chat now name inputs).blocked = false →
      Ev.closeLog ∈ (run_model chat now name inputs).events ∧
      (run_model chat now name inputs).events.getLast? =
        some (Ev.print ("Session log saved to: " ++ logPath now)) := by
  intro chat now name inputs _hnb
  rcases hm : run_model_loop chat inputs "" with ⟨evs, ex, rest⟩
  cases ex with
  | normal =>
    constructor
    · simp [run_model, hm]
    · simp only [run_model, hm]
      rw [List.getLast?_append_cons]
      rfl
  | raised e =>
    constructor
    · simp [run_model, hm]
    · simp only [run_model, hm]
      rw [List.getLast?_append_cons]
      rfl
  | stuck =>
    exfalso
    simp [run_model, hm] at _hnb

/-- C7, witness: a session whose only streaming call raises at once still
closes the log and announces its path. -/
theorem c7_witness :
    Ev.closeLog ∈ (run_model (fun _ => .raise [] "boom") "t" "m" ["hello"]).events ∧
    (run_model (fun _ => .raise [] "boom") "t" "m" ["hello"]).events.getLast? =
      some (Ev.print ("Session log saved to: " ++ logPath "t")) :=
  c7_log_closed_and_path_announced (fun _ => .raise [] "boom") "t" "m" ["hello"]
    (by decide)

/-- C3, counterexample: a ValueError from get_user_parameters does reach
secondary_menu, but the claim that it is handled there and turned into a
console message fails: neither secondary_menu nor main has any handler, so
the exception escapes both and the process terminates abnormally instead of
returning to a stable menu state. -/
theorem c3_counterexample_parse_error_escapes :
    secondary_menu { name := some "llama2", details := none, size := some (.intV 0) }
        (fun _ => .chunks []) (.response 200 ⟨some []⟩) .success "t"
        ["3", "foo", "abc"] = .exc .valueError ∧
    main (.response 200
          ⟨some [{ name := some "llama2", details := none, size := some (.intV 0) }]⟩)
        (fun _ => .chunks []) .success "t" ["1", "3", "foo", "abc"] =
      .exc .valueError := by
  decide

/-- C3, amended: a value that float() cannot parse raises ValueError out of
get_user_parameters to its caller, and secondary_menu propagates it
unhandled (there is no conversion to a console message and no return to a
menu): the copy-model branch with any unparsable first parameter value
makes the whole menu call raise. -/
theorem c3_amended_parse_error_unhandled :
    (∀ (s : String) (rest : List String), pyFloatOfString s = none →
      get_user_parameters (s :: rest) = .exc .valueError) ∧
    (∀ (m : PyModel) (chat : String → ChatOutcome) (fetch : FetchOutcome)
       (tool : ToolOutcome) (now nm s : String) (rest : List String),
      pyFloatOfString s = none →
      secondary_menu m chat fetch tool now ("3" :: nm :: s :: rest) =
        .exc .valueError) := by
  constructor
  · intro s rest h
    simp [get_user_parameters, readFloat, h]
  · intro m chat fetch tool now nm s rest h
    simp [secondary_menu, secondary_menu_go, get_user_parameters, readFloat, h]

/-- C3, witness for the amended theorem at a concrete unparsable value. -/
theorem c3_amended_witness :
    get_user_parameters ["cold", "2048"] = .exc .valueError ∧
    secondary_menu { name := none, details := none, size := none }
        (fun _ => .chunks []) (.response 500 ⟨none⟩) (.failure "err") "u"
        ["3", "derived", "cold"] = .exc .valueError :=
  ⟨c3_amended_parse_error_unhandled.1 "cold" ["2048"] (by decide),
   c3_amended_parse_error_unhandled.2 { name := none, details := none, size := none }
     (fun _ => .chunks []) (.response 500 ⟨none⟩) (.failure "err") "u" "derived" "cold" []
     (by decide)⟩

end Pyllama
